import Mathlib

/-!
Verification of the BoldSign e-signature reconciliation pipeline of the
Intakr repository: a shallow embedding of the two edge-function handlers
`boldsign-webhook` and `fetch-signed-document` (and the service-level
variant of the latter), together with proofs of the behavioural
properties claimed of them.

The handlers are Deno/TypeScript request handlers whose state lives in a
Postgres database (tables `engagement_letters` and `clients`) and an
artifact store (bucket `signed-letters`).  The embedding models the
database as explicit record lists, every external call (provider
download, storage upload, database update, notification post) as an
entry in an effect trace, and the possible failure of each external
call as an explicit outcome flag passed to the handler.  JavaScript
truthiness of the string fields involved (`null` and `""` are both
falsy) is modelled explicitly.
-/

namespace Intakr

/-- JS string coercion used where the source reads `x || ''` or
`headers.get(...) || ''`: `null`/absent becomes the empty string. -/
def jsGet (s : Option String) : String := s.getD ""

/-- JS truthiness for a nullable string: `null`, `undefined` and `""`
are falsy, every other string truthy. -/
def jsTruthy (s : Option String) : Bool := !(jsGet s).isEmpty

/-- JS `a || b` on nullable strings. -/
def jsOr (a b : Option String) : Option String := if jsTruthy a then a else b

/-- JS template-literal interpolation of a nullable string:
`${null}` renders as the string `"null"`. -/
def jsInterp (s : Option String) : String :=
  match s with
  | some v => v
  | none => "null"

/-- JS `String.prototype.endsWith`, modelled structurally over the
character list so that concrete instances evaluate by computation. -/
def jsEndsWith (s suffix : String) : Bool := suffix.data.isSuffixOf s.data

/-- Row of `engagement_letters` restricted to the columns this core
reads or writes (`id, client_id, boldsign_document_id, esign_status,
approval_status, signed_pdf_path`). -/
structure Letter where
  id : String
  client_id : Option String
  boldsign_document_id : Option String
  esign_status : Option String
  approval_status : Option String
  signed_pdf_path : Option String
deriving Repr, DecidableEq

/-- Row of `clients` restricted to the columns this core reads or
writes. -/
structure Client where
  id : String
  status : Option String
  letter_executed : Option String
  entity_name : Option String
  contact_name : Option String
  matter_type : Option String
deriving Repr, DecidableEq

/-- The durable database state the handlers coordinate through. -/
structure Db where
  letters : List Letter
  clients : List Client
deriving Repr, DecidableEq

/-- Environment configuration read via `Deno.env.get`. -/
structure Env where
  webhookSecret : Option String
  boldsignApiKey : Option String
  slackWebhookUrl : Option String
deriving Repr, DecidableEq

/-- One observable external action of a handler run, in order of
occurrence.  Database point lookups and point updates, provider
downloads, artifact-store uploads and the notification post each leave
one entry. -/
inductive Effect where
  | findLetterByDoc (documentId : String)
  | getLetterById (letterId : String)
  | updateLetterStatus (letterId : String) (esign : String) (approval : Option String)
  | updateLetterPath (letterId : String) (path : String)
  | download (documentId : String)
  | upload (path : String)
  | updateClient (clientId : String) (status : String) (letterExecuted : String)
  | readClient (clientId : String)
  | notify
deriving Repr, DecidableEq

/-- HTTP response of a handler: status code plus the JSON body fields
the handlers actually emit. -/
structure HttpResponse where
  status : Nat := 200
  ok : Bool := false
  alreadyStored : Bool := false
  path : Option String := none
  statusField : Option String := none
  message : Option String := none
  error : Option String := none
deriving Repr, DecidableEq

/-- Failure-injection outcomes for the external calls a webhook run can
make: `none` for `downloadResult` models a non-2xx provider response or
a thrown fetch error, the boolean flags model the corresponding
database/storage call returning an error. -/
structure Outcomes where
  findLetterFails : Bool := false
  statusUpdateFails : Bool := false
  downloadResult : Option (List Nat) := some [1]
  uploadFails : Bool := false
  pathUpdateFails : Bool := false
  clientUpdateFails : Bool := false
  notifyFails : Bool := false
deriving Repr, DecidableEq

/-- The BoldSign event names the webhook handles (`HANDLED_EVENTS`). -/
def HANDLED_EVENTS : List String :=
  ["Sent", "Viewed", "Signed", "Completed", "Declined", "Expired", "Revoked"]

/-- `mapEventToStatus` of `boldsign-webhook/index.ts`: closed mapping
from BoldSign event names to internal `esign_status` values. -/
def mapEventToStatus (event : String) : Option String :=
  match event with
  | "Sent" => some "sent"
  | "Viewed" => some "viewed"
  | "Signed" => some "signed"
  | "Completed" => some "completed"
  | "Declined" => some "declined"
  | "Expired" => some "expired"
  | "Revoked" => some "revoked"
  | _ => none

/-- Parsed JSON payload of a webhook request, holding the four places
the handler probes: `payload.event?.eventType`, `payload.eventType`,
`payload.event?.document?.documentId`, `payload.documentId`. -/
structure Payload where
  eventEventType : Option String := none
  topEventType : Option String := none
  eventDocumentId : Option String := none
  topDocumentId : Option String := none
deriving Repr, DecidableEq

/-- An inbound webhook request: HTTP method, the
`X-BoldSign-Signature` header, the raw body text, and the result of
`JSON.parse(rawBody)` (`none` when parsing throws). -/
structure WebhookReq where
  method : String
  signatureHeader : Option String
  rawBody : String
  payload : Option Payload
deriving Repr, DecidableEq

/-- The artifact-store key computed by the webhook's Completed block
(line 148 of `boldsign-webhook/index.ts`):
`${letter.client_id}/${letter.id}_signed.pdf`. -/
def webhookStoragePath (letter : Letter) : String :=
  jsInterp letter.client_id ++ "/" ++ letter.id ++ "_signed.pdf"

/-- The artifact-store key computed by the on-demand fetch handler
(line 119 of `fetch-signed-document/index.ts`):
`${letter.client_id}/${letter.id}_signed.pdf`. -/
def fetchStoragePath (letter : Letter) : String :=
  jsInterp letter.client_id ++ "/" ++ letter.id ++ "_signed.pdf"

/-- The webhook's signature gate (lines 59–76 of the handler): when a
secret is configured, a missing header yields a 401 and a header that
differs from the HMAC of the raw body under the secret yields a 401;
otherwise the gate passes.  `hmac` abstracts the base64-encoded
HMAC-SHA256 computed by `verifyWebhookSignature`. -/
def signatureGate (hmac : String → String → String) (env : Env)
    (req : WebhookReq) : Option HttpResponse :=
  match env.webhookSecret with
  | none => none
  | some secret =>
    let signature := jsGet req.signatureHeader
    if signature.isEmpty then
      some { status := 401, error := some "Missing webhook signature" }
    else if hmac secret req.rawBody == signature then
      none
    else
      some { status := 401, error := some "Invalid webhook signature" }

/-- The primary status update of the webhook (lines 123–135 of
`boldsign-webhook/index.ts`): overwrite `esign_status` with the newly
classified value and, on `Completed`, also set `approval_status` to
`Executed`; on a database error the state is unchanged (the error is
only logged). -/
def statusUpdatedDb (o : Outcomes) (isCompleted : Bool) (esignStatus : String)
    (letterId : String) (db : Db) : Db :=
  if o.statusUpdateFails then db
  else
    { db with letters := db.letters.map (fun L =>
        if L.id == letterId then
          { L with
            esign_status := some esignStatus,
            approval_status :=
              if isCompleted then some "Executed" else L.approval_status }
        else L) }

/-- The Completed-only download/upload/path-persist block of the
webhook (lines 137–170): skipped entirely unless the event is
`Completed` and an API key is configured; a failed download or upload
leaves the state unchanged; a successful upload is followed by
persisting the storage path on the letter. -/
def retrievalStep (env : Env) (o : Outcomes) (isCompleted : Bool)
    (docId : String) (letter : Letter) (db : Db) : Db × List Effect :=
  if isCompleted then
    match env.boldsignApiKey with
    | none => (db, [])
    | some _ =>
      match o.downloadResult with
      | none => (db, [Effect.download docId])
      | some _bytes =>
        let storagePath := webhookStoragePath letter
        if o.uploadFails then
          (db, [Effect.download docId, Effect.upload storagePath])
        else
          let db2 :=
            if o.pathUpdateFails then db
            else
              { db with letters := db.letters.map (fun L =>
                  if L.id == letter.id then
                    { L with signed_pdf_path := some storagePath }
                  else L) }
          (db2, [Effect.download docId, Effect.upload storagePath,
                 Effect.updateLetterPath letter.id storagePath])
  else (db, [])

/-- The Completed-only client update and notification block of the
webhook (lines 172–224): runs only for `Completed` events on letters
with a truthy `client_id`; the client update error is only logged, and
the Slack post happens only when a webhook URL is configured, its
failure being swallowed. -/
def clientStep (env : Env) (o : Outcomes) (today : String) (isCompleted : Bool)
    (letter : Letter) (db : Db) : Db × List Effect :=
  if isCompleted && jsTruthy letter.client_id then
    let cid := jsGet letter.client_id
    let db3 :=
      if o.clientUpdateFails then db
      else
        { db with clients := db.clients.map (fun c =>
            if c.id == cid then
              { c with status := some "Executed",
                       letter_executed := some today }
            else c) }
    match env.slackWebhookUrl with
    | none => (db3, [Effect.updateClient cid "Executed" today])
    | some _ =>
      (db3, [Effect.updateClient cid "Executed" today,
             Effect.readClient cid, Effect.notify])
  else (db, [])

/-- The body of the webhook handler from the update of `esign_status`
onwards (lines 123–228 of `boldsign-webhook/index.ts`), once the letter
matching the event's document id has been found: the primary status
update, then the retrieval block, then the client/notification block,
ending in the unconditional 200 acknowledgment. -/
def handleLetterEvent (env : Env) (o : Outcomes) (today : String)
    (eventType docId esignStatus : String) (letter : Letter) (db : Db) :
    HttpResponse × Db × List Effect :=
  let isCompleted := eventType == "Completed"
  let approvalSet : Option String :=
    if isCompleted then some "Executed" else none
  let db1 := statusUpdatedDb o isCompleted esignStatus letter.id db
  let s2 := retrievalStep env o isCompleted docId letter db1
  let s3 := clientStep env o today isCompleted letter s2.1
  ({ status := 200, ok := true, statusField := some esignStatus },
   s3.1,
   Effect.updateLetterStatus letter.id esignStatus approvalSet :: (s2.2 ++ s3.2))

/-- `boldsign-webhook/index.ts`: processes one inbound BoldSign event
against database `db`, with external-call outcomes `o` and processing
date `today`; returns the HTTP response, the resulting database state
and the trace of external effects. -/
def boldsignWebhook (hmac : String → String → String) (env : Env)
    (req : WebhookReq) (o : Outcomes) (today : String) (db : Db) :
    HttpResponse × Db × List Effect :=
  if req.method == "OPTIONS" then
    ({ status := 200 }, db, [])
  else if !(req.method == "POST") then
    ({ status := 405, error := some "Method not allowed" }, db, [])
  else
    match signatureGate hmac env req with
    | some r => (r, db, [])
    | none =>
      match req.payload with
      | none =>
        ({ status := 500, error := some "JSON parse failed" }, db, [])
      | some payload =>
        let eventType := jsOr payload.eventEventType payload.topEventType
        let documentId := jsOr payload.eventDocumentId payload.topDocumentId
        if !(jsTruthy eventType && jsTruthy documentId) then
          ({ status := 200, ok := true, message := some "Acknowledged" }, db, [])
        else if !(HANDLED_EVENTS.contains (jsGet eventType)) then
          ({ status := 200, ok := true, message := some "Event not handled" }, db, [])
        else
          match mapEventToStatus (jsGet eventType) with
          | none => ({ status := 200, ok := true }, db, [])
          | some esignStatus =>
            let docId := jsGet documentId
            let found :=
              if o.findLetterFails then []
              else (db.letters.filter
                (fun L => L.boldsign_document_id == some docId)).take 1
            let tr0 : List Effect := [Effect.findLetterByDoc docId]
            match found with
            | [] =>
              ({ status := 200, ok := true,
                 message := some "Document not found in system" }, db, tr0)
            | letter :: _ =>
              let r := handleLetterEvent env o today (jsGet eventType) docId
                esignStatus letter db
              (r.1, r.2.1, tr0 ++ r.2.2)

/-- An inbound on-demand fetch request: HTTP method, the
`Authorization` header, the result of `supabase.auth.getUser()`
(`none` = auth error or no user, `some e` = a user whose nullable
`email` is `e`), and the result of `req.json()` projected to its
`letterId` field (`none` when parsing throws). -/
structure FetchReq where
  method : String
  authHeader : Option String
  userEmail : Option (Option String)
  body : Option (Option String)
deriving Repr, DecidableEq

/-- Failure-injection outcomes for the external calls of an on-demand
fetch run. -/
structure FetchOutcomes where
  letterQueryFails : Bool := false
  downloadResult : Option (List Nat) := some [1]
  uploadFails : Bool := false
  pathUpdateFails : Bool := false
deriving Repr, DecidableEq

/-- The body of the authenticated pull-based retrieval handler once
the letter has been fetched (lines 69–141 of
`fetch-signed-document/index.ts`): the `alreadyStored` short-circuit,
the document-id and signed-status guards, the provider download, the
upsert upload, and the path persist.  Returns the response, the new
database and the trace of effects performed by this part. -/
def fetchLetterStage (env : Env) (o : FetchOutcomes) (letter : Letter)
    (db : Db) : HttpResponse × Db × List Effect :=
  if jsTruthy letter.signed_pdf_path then
    ({ status := 200, ok := true, path := letter.signed_pdf_path,
       alreadyStored := true }, db, [])
  else if !(jsTruthy letter.boldsign_document_id) then
    ({ status := 400,
       error := some "No BoldSign document linked to this letter" }, db, [])
  else if !(letter.esign_status == some "completed"
            || letter.esign_status == some "signed") then
    ({ status := 400,
       error := some "Document has not been signed yet" }, db, [])
  else
    match env.boldsignApiKey with
    | none =>
      ({ status := 500,
         error := some "BoldSign API key not configured" }, db, [])
    | some _ =>
      let docId := jsGet letter.boldsign_document_id
      match o.downloadResult with
      | none =>
        ({ status := 502,
           error := some "Failed to download from BoldSign" }, db,
         [Effect.download docId])
      | some _bytes =>
        let storagePath := fetchStoragePath letter
        if o.uploadFails then
          ({ status := 500, error := some "Failed to store PDF" }, db,
           [Effect.download docId, Effect.upload storagePath])
        else
          let db1 :=
            if o.pathUpdateFails then db
            else
              { db with letters := db.letters.map (fun L =>
                  if L.id == letter.id then
                    { L with signed_pdf_path := some storagePath }
                  else L) }
          ({ status := 200, ok := true, path := some storagePath },
           db1,
           [Effect.download docId, Effect.upload storagePath,
            Effect.updateLetterPath letter.id storagePath])

/-- `fetch-signed-document/index.ts`: the authenticated pull-based
retrieval entry point.  Returns the HTTP response, the resulting
database state and the trace of external effects. -/
def fetchSignedDocument (env : Env) (req : FetchReq) (o : FetchOutcomes)
    (db : Db) : HttpResponse × Db × List Effect :=
  if req.method == "OPTIONS" then
    ({ status := 200 }, db, [])
  else if !(jsTruthy req.authHeader) then
    ({ status := 401, error := some "Missing authorization" }, db, [])
  else
    match req.userEmail with
    | none => ({ status := 401, error := some "Unauthorized" }, db, [])
    | some email =>
      if !(match email with
           | some e => jsEndsWith e "@margolispllc.com"
           | none => false) then
        ({ status := 403, error := some "Forbidden" }, db, [])
      else
        match req.body with
        | none => ({ status := 500, error := some "JSON parse failed" }, db, [])
        | some letterIdField =>
          if !(jsTruthy letterIdField) then
            ({ status := 400, error := some "Missing letterId" }, db, [])
          else
            let letterId := jsGet letterIdField
            let found :=
              if o.letterQueryFails then none
              else db.letters.find? (fun L => L.id == letterId)
            match found with
            | none =>
              ({ status := 404, error := some "Letter not found" }, db,
               [Effect.getLetterById letterId])
            | some letter =>
              let r := fetchLetterStage env o letter db
              (r.1, r.2.1, Effect.getLetterById letterId :: r.2.2)

/-- The post-lookup body of the service-level fetch variant
(`src/unnamed/part_001`): like `fetchLetterStage` but reading with the
service-role client, without the signed-status guard, rejecting an
empty download body with a 502, and when persisting the path also
correcting `esign_status` to `completed` if it is not already. -/
def fetchLetterStageService (env : Env) (o : FetchOutcomes) (letter : Letter)
    (db : Db) : HttpResponse × Db × List Effect :=
  if jsTruthy letter.signed_pdf_path then
    ({ status := 200, ok := true, path := letter.signed_pdf_path,
       alreadyStored := true }, db, [])
  else if !(jsTruthy letter.boldsign_document_id) then
    ({ status := 400,
       error := some "No BoldSign document linked to this letter" }, db, [])
  else
    match env.boldsignApiKey with
    | none =>
      ({ status := 500,
         error := some "BoldSign API key not configured" }, db, [])
    | some _ =>
      let docId := jsGet letter.boldsign_document_id
      match o.downloadResult with
      | none =>
        ({ status := 502,
           error := some "Failed to download from BoldSign" }, db,
         [Effect.download docId])
      | some bytes =>
        if bytes.length == 0 then
          ({ status := 502,
             error := some "BoldSign returned empty response" }, db,
           [Effect.download docId])
        else
          let storagePath := fetchStoragePath letter
          if o.uploadFails then
            ({ status := 500, error := some "Failed to store PDF" }, db,
             [Effect.download docId, Effect.upload storagePath])
          else
            let db1 :=
              if o.pathUpdateFails then db
              else
                { db with letters := db.letters.map (fun L =>
                    if L.id == letter.id then
                      { L with
                        signed_pdf_path := some storagePath,
                        esign_status :=
                          if letter.esign_status == some "completed"
                          then L.esign_status
                          else some "completed" }
                    else L) }
            ({ status := 200, ok := true, path := some storagePath },
             db1,
             [Effect.download docId, Effect.upload storagePath,
              Effect.updateLetterPath letter.id storagePath])

/-- The service-level variant of the on-demand fetch handler
(`src/unnamed/part_001`): same entry guards as the authenticated
variant, dispatching to `fetchLetterStageService` once the letter is
found. -/
def fetchSignedDocumentService (env : Env) (req : FetchReq)
    (o : FetchOutcomes) (db : Db) : HttpResponse × Db × List Effect :=
  if req.method == "OPTIONS" then
    ({ status := 200 }, db, [])
  else if !(jsTruthy req.authHeader) then
    ({ status := 401, error := some "Missing authorization" }, db, [])
  else
    match req.userEmail with
    | none => ({ status := 401, error := some "Unauthorized" }, db, [])
    | some email =>
      if !(match email with
           | some e => jsEndsWith e "@margolispllc.com"
           | none => false) then
        ({ status := 403, error := some "Forbidden" }, db, [])
      else
        match req.body with
        | none => ({ status := 500, error := some "JSON parse failed" }, db, [])
        | some letterIdField =>
          if !(jsTruthy letterIdField) then
            ({ status := 400, error := some "Missing letterId" }, db, [])
          else
            let letterId := jsGet letterIdField
            let found :=
              if o.letterQueryFails then none
              else db.letters.find? (fun L => L.id == letterId)
            match found with
            | none =>
              ({ status := 404, error := some "Letter not found" }, db,
               [Effect.getLetterById letterId])
            | some letter =>
              let r := fetchLetterStageService env o letter db
              (r.1, r.2.1, Effect.getLetterById letterId :: r.2.2)

/-- The deterministic artifact key as the specification words it:
`<clientId>/<letterId>_signed.pdf`. -/
def canonicalStoragePath (clientId letterId : String) : String :=
  clientId ++ "/" ++ letterId ++ "_signed.pdf"

/-- The number of artifact-store writes recorded in an effect trace. -/
def countUploads (tr : List Effect) : Nat :=
  (tr.filter (fun e => match e with | Effect.upload _ => true | _ => false)).length

/-- The number of provider downloads recorded in an effect trace. -/
def countDownloads (tr : List Effect) : Nat :=
  (tr.filter (fun e => match e with | Effect.download _ => true | _ => false)).length

/-! ### Concrete fixtures used to instantiate the theorems -/

/-- A concrete stand-in for the keyed HMAC function. -/
def hmacFix : String → String → String := fun secret body => secret ++ ":" ++ body

/-- A well-formed webhook delivery of event `et` for document `d`. -/
def eventReq (et d : String) : WebhookReq :=
  { method := "POST", signatureHeader := none, rawBody := "raw-body",
    payload := some { eventEventType := some et, topEventType := none,
                      eventDocumentId := some d, topDocumentId := none } }

/-- A well-formed authenticated on-demand fetch request for letter
`lid`. -/
def fetchReq (lid : String) : FetchReq :=
  { method := "POST", authHeader := some "Bearer t",
    userEmail := some (some "user@margolispllc.com"),
    body := some (some lid) }

/-- A concrete client row. -/
def clientFix : Client :=
  { id := "C1", status := none, letter_executed := none,
    entity_name := some "Acme LLC", contact_name := none,
    matter_type := some "Tax" }

/-- A concrete engagement letter row. -/
def letterFix : Letter :=
  { id := "L1", client_id := some "C1", boldsign_document_id := some "doc1",
    esign_status := some "sent", approval_status := none,
    signed_pdf_path := none }

/-- The concrete letter after full execution: status `completed`,
approval `Executed`. -/
def letterDone : Letter :=
  { letterFix with
    esign_status := some "completed",
    approval_status := some "Executed" }

/-- The concrete letter with no linked BoldSign document. -/
def letterNoDoc : Letter :=
  { letterFix with boldsign_document_id := none }

/-- The concrete letter in `signed` state, artifact not yet stored. -/
def letterSigned : Letter :=
  { letterFix with esign_status := some "signed" }

/-- The concrete fully-executed letter with its artifact already
stored at the canonical path. -/
def letterStored : Letter :=
  { letterDone with signed_pdf_path := some "C1/L1_signed.pdf" }

/-- Environment with no webhook secret, an API key and a Slack URL. -/
def envFix : Env :=
  { webhookSecret := none, boldsignApiKey := some "api-key",
    slackWebhookUrl := some "slack-url" }

/-- Environment with nothing configured. -/
def envBare : Env :=
  { webhookSecret := none, boldsignApiKey := none, slackWebhookUrl := none }

/-! ### Basic lemmas about the JS-value helpers and the storage key -/

@[simp] theorem jsGet_some (s : String) : jsGet (some s) = s := rfl

@[simp] theorem jsGet_none : jsGet none = "" := rfl

@[simp] theorem jsTruthy_none : jsTruthy none = false := rfl

theorem jsTruthy_some_of_ne {s : String} (h : s ≠ "") : jsTruthy (some s) = true := by
  have hge : jsGet (some s) = s := rfl
  unfold jsTruthy
  rw [hge]
  cases he : s.isEmpty
  · rfl
  · exact absurd ((String.isEmpty_iff s).mp he) h

theorem jsOr_left {a : String} (b : Option String) (h : a ≠ "") :
    jsOr (some a) b = some a := by
  unfold jsOr
  rw [jsTruthy_some_of_ne h]
  rfl

theorem canonicalStoragePath_ne_empty (c l : String) :
    canonicalStoragePath c l ≠ "" := by
  intro h
  have h2 := congrArg String.length h
  simp [canonicalStoragePath, String.length_append] at h2
  exact absurd h2.1.1.2 (by decide)

theorem webhookStoragePath_eq_canonical {letter : Letter} {c : String}
    (h : letter.client_id = some c) :
    webhookStoragePath letter = canonicalStoragePath c letter.id := by
  unfold webhookStoragePath canonicalStoragePath jsInterp
  rw [h]

theorem fetchStoragePath_eq_canonical {letter : Letter} {c : String}
    (h : letter.client_id = some c) :
    fetchStoragePath letter = canonicalStoragePath c letter.id := by
  unfold fetchStoragePath canonicalStoragePath jsInterp
  rw [h]

/-! ### Structural lemmas about the webhook handler -/

/-- Every run of the post-lookup block responds 200 with `ok: true` and
the classified status, whatever the outcomes of its external calls. -/
theorem handleLetterEvent_response (env : Env) (o : Outcomes) (today : String)
    (et d st : String) (letter : Letter) (db : Db) :
    (handleLetterEvent env o today et d st letter db).1
      = { status := 200, ok := true, statusField := some st } := rfl

/-- The client/notification block never changes the letters table. -/
theorem clientStep_letters (env : Env) (o : Outcomes) (today : String)
    (isCompleted : Bool) (letter : Letter) (db : Db) :
    (clientStep env o today isCompleted letter db).1.letters = db.letters := by
  unfold clientStep
  repeat' split
  all_goals rfl

/-- The retrieval block never changes any letter's `esign_status`. -/
theorem retrievalStep_esign (env : Env) (o : Outcomes) (isCompleted : Bool)
    (docId : String) (letter : Letter) (db : Db) :
    (retrievalStep env o isCompleted docId letter db).1.letters.map Letter.esign_status
      = db.letters.map Letter.esign_status := by
  unfold retrievalStep
  repeat' split
  all_goals simp [List.map_map, Function.comp_def, apply_ite Letter.esign_status]

/-- When no API key is configured the retrieval block does nothing to
the database. -/
theorem retrievalStep_noApiKey (env : Env) (o : Outcomes) (isCompleted : Bool)
    (docId : String) (letter : Letter) (db : Db)
    (h : env.boldsignApiKey = none) :
    (retrievalStep env o isCompleted docId letter db).1 = db := by
  unfold retrievalStep
  rw [h]
  split
  all_goals rfl

/-- When the primary status update succeeds, the letters' resulting
`esign_status` column is the unconditional overwrite of the matched
letter's status with the classified value, whatever the other
outcomes. -/
theorem handleLetterEvent_letters_esign (env : Env) (o : Outcomes) (today : String)
    (et d st : String) (letter : Letter) (db : Db)
    (h : o.statusUpdateFails = false) :
    ((handleLetterEvent env o today et d st letter db).2.1).letters.map Letter.esign_status
      = db.letters.map (fun L => if L.id == letter.id then some st else L.esign_status) := by
  unfold handleLetterEvent
  rw [clientStep_letters, retrievalStep_esign]
  unfold statusUpdatedDb
  rw [h]
  simp [List.map_map, Function.comp_def, apply_ite Letter.esign_status]

/-- When no API key is configured, the database after the post-lookup
block carries exactly the letters produced by the primary status
update. -/
theorem handleLetterEvent_letters_noApiKey (env : Env) (o : Outcomes)
    (today : String) (et d st : String) (letter : Letter) (db : Db)
    (henv : env.boldsignApiKey = none) :
    (handleLetterEvent env o today et d st letter db).2.1.letters
      = (statusUpdatedDb o (et == "Completed") st letter.id db).letters := by
  unfold handleLetterEvent
  rw [clientStep_letters, retrievalStep_noApiKey _ _ _ _ _ _ henv]

/-- On a `Completed` event for a letter with a client, with an API key
and a Slack URL configured, the trace of the post-lookup block contains
all four side-effect attempts — the status/approval update, the
provider download, the client update and the notification — whatever
the outcome of each external call. -/
theorem handleLetterEvent_trace_completed (env : Env) (o : Outcomes)
    (today : String) (d st : String) (letter : Letter) (db : Db)
    (k u c : String)
    (hk : env.boldsignApiKey = some k) (hs : env.slackWebhookUrl = some u)
    (hc : letter.client_id = some c) (hcne : c ≠ "") :
    Effect.updateLetterStatus letter.id st (some "Executed")
        ∈ (handleLetterEvent env o today "Completed" d st letter db).2.2 ∧
    Effect.download d ∈ (handleLetterEvent env o today "Completed" d st letter db).2.2 ∧
    Effect.updateClient c "Executed" today
        ∈ (handleLetterEvent env o today "Completed" d st letter db).2.2 ∧
    Effect.notify ∈ (handleLetterEvent env o today "Completed" d st letter db).2.2 := by
  cases hdl : o.downloadResult <;> cases hup : o.uploadFails <;>
    cases hpu : o.pathUpdateFails <;>
    simp [handleLetterEvent, retrievalStep, clientStep, hk, hs, hc, hdl, hup, hpu,
      jsTruthy_some_of_ne hcne]

/-- Dispatch: when the method is `POST`, the signature gate passes, the
payload parses with a truthy event type and document id, the event is
handled and classified, and the database lookup finds a letter, the
whole webhook run is the lookup effect followed by the post-lookup
block. -/
theorem boldsignWebhook_found (hmac : String → String → String) (env : Env)
    (req : WebhookReq) (o : Outcomes) (today : String) (db : Db)
    (p : Payload) (et d st : String) (letter : Letter)
    (hm : req.method = "POST")
    (hg : signatureGate hmac env req = none)
    (hp : req.payload = some p)
    (het : jsOr p.eventEventType p.topEventType = some et) (hetne : et ≠ "")
    (hd : jsOr p.eventDocumentId p.topDocumentId = some d) (hdne : d ≠ "")
    (hh : HANDLED_EVENTS.contains et = true)
    (hmap : mapEventToStatus et = some st)
    (hf : o.findLetterFails = false)
    (hfind : (db.letters.filter
        (fun L => L.boldsign_document_id == some d)).take 1 = [letter]) :
    boldsignWebhook hmac env req o today db
      = ((handleLetterEvent env o today et d st letter db).1,
         (handleLetterEvent env o today et d st letter db).2.1,
         Effect.findLetterByDoc d
           :: (handleLetterEvent env o today et d st letter db).2.2) := by
  unfold boldsignWebhook
  rw [hm, hg, hp]
  simp only [het, hd, hmap, hh, hf, hfind,
    jsTruthy_some_of_ne hetne, jsTruthy_some_of_ne hdne, jsGet_some]
  simp

/-! ### Structural lemmas about the on-demand fetch handlers -/

theorem fetchStoragePath_ne_empty (letter : Letter) :
    fetchStoragePath letter ≠ "" := by
  intro h
  have h2 := congrArg String.length h
  simp [fetchStoragePath, String.length_append] at h2
  exact absurd h2.1.1.2 (by decide)

@[simp] theorem jsTruthy_fetchStoragePath (letter : Letter) :
    jsTruthy (some (fetchStoragePath letter)) = true :=
  jsTruthy_some_of_ne (fetchStoragePath_ne_empty letter)

/-- Dispatch: when the method is not `OPTIONS`, the caller is
authenticated under the organisation domain, the body carries a truthy
`letterId` and the lookup finds a letter, the authenticated fetch run
is the lookup effect followed by the post-lookup stage. -/
theorem fetchSignedDocument_found (env : Env) (req : FetchReq)
    (o : FetchOutcomes) (db : Db) (e lid : String) (letter : Letter)
    (hm : ¬ req.method = "OPTIONS")
    (ha : jsTruthy req.authHeader = true)
    (hu : req.userEmail = some (some e))
    (he : jsEndsWith e "@margolispllc.com" = true)
    (hb : req.body = some (some lid)) (hlne : lid ≠ "")
    (hq : o.letterQueryFails = false)
    (hfind : db.letters.find? (fun L => L.id == lid) = some letter) :
    fetchSignedDocument env req o db
      = ((fetchLetterStage env o letter db).1,
         (fetchLetterStage env o letter db).2.1,
         Effect.getLetterById lid :: (fetchLetterStage env o letter db).2.2) := by
  unfold fetchSignedDocument
  rw [hu, hb]
  simp only [beq_eq_false_iff_ne.mpr hm, Bool.false_eq_true, if_false,
    ha, Bool.not_true, he, jsTruthy_some_of_ne hlne, jsGet_some, hq, hfind]

/-- Dispatch for the service-level fetch variant, under the same entry
conditions. -/
theorem fetchSignedDocumentService_found (env : Env) (req : FetchReq)
    (o : FetchOutcomes) (db : Db) (e lid : String) (letter : Letter)
    (hm : ¬ req.method = "OPTIONS")
    (ha : jsTruthy req.authHeader = true)
    (hu : req.userEmail = some (some e))
    (he : jsEndsWith e "@margolispllc.com" = true)
    (hb : req.body = some (some lid)) (hlne : lid ≠ "")
    (hq : o.letterQueryFails = false)
    (hfind : db.letters.find? (fun L => L.id == lid) = some letter) :
    fetchSignedDocumentService env req o db
      = ((fetchLetterStageService env o letter db).1,
         (fetchLetterStageService env o letter db).2.1,
         Effect.getLetterById lid
           :: (fetchLetterStageService env o letter db).2.2) := by
  unfold fetchSignedDocumentService
  rw [hu, hb]
  simp only [beq_eq_false_iff_ne.mpr hm, Bool.false_eq_true, if_false,
    ha, Bool.not_true, he, jsTruthy_some_of_ne hlne, jsGet_some, hq, hfind]

/-- The short-circuit of the post-lookup stage: a truthy stored path is
returned as-is with `alreadyStored`, with no effect at all. -/
theorem fetchLetterStage_alreadyStored (env : Env) (o : FetchOutcomes)
    (letter : Letter) (db : Db) (pa : String)
    (hpath : letter.signed_pdf_path = some pa) (hpane : pa ≠ "") :
    fetchLetterStage env o letter db
      = ({ status := 200, ok := true, path := some pa,
           alreadyStored := true }, db, []) := by
  unfold fetchLetterStage
  rw [hpath, jsTruthy_some_of_ne hpane]
  simp

/-- Any rejection produced by the signature gate is a 401. -/
theorem signatureGate_status (hmac : String → String → String) (env : Env)
    (req : WebhookReq) (r : HttpResponse)
    (h : signatureGate hmac env req = some r) : r.status = 401 := by
  rcases henv : env.webhookSecret with _ | secret
  · simp only [signatureGate, henv] at h
    exact absurd h (by simp)
  · simp only [signatureGate, henv] at h
    by_cases he : (jsGet req.signatureHeader).isEmpty = true
    · rw [if_pos he] at h
      cases h
      rfl
    · rw [if_neg he] at h
      by_cases hq : (hmac secret req.rawBody == jsGet req.signatureHeader) = true
      · rw [if_pos hq] at h
        exact absurd h (by simp)
      · rw [if_neg hq] at h
        cases h
        rfl

/-! ### The claims -/

/-- C5: when a webhook secret is configured, an inbound POST whose
signature header is missing (empty) or differs from the HMAC of the
exact raw body under that secret is rejected with a 401, the database
is untouched, and not a single external effect (read, write, download,
upload or notification) is performed. -/
theorem C5_signature_gate_rejects_before_mutation
    (hmac : String → String → String) (env : Env) (req : WebhookReq)
    (o : Outcomes) (today : String) (db : Db) (secret : String)
    (hm : req.method = "POST")
    (hsec : env.webhookSecret = some secret)
    (hbad : jsGet req.signatureHeader = ""
            ∨ ¬ hmac secret req.rawBody = jsGet req.signatureHeader) :
    (boldsignWebhook hmac env req o today db).1.status = 401 ∧
    (boldsignWebhook hmac env req o today db).2.1 = db ∧
    (boldsignWebhook hmac env req o today db).2.2 = [] := by
  have hg : ∃ r, signatureGate hmac env req = some r := by
    unfold signatureGate
    simp only [hsec]
    by_cases he : (jsGet req.signatureHeader).isEmpty = true
    · rw [if_pos he]
      exact ⟨_, rfl⟩
    · rw [if_neg he]
      rcases hbad with h | h
      · exact absurd (by rw [h]; rfl) he
      · rw [if_neg (by simp [h])]
        exact ⟨_, rfl⟩
  obtain ⟨r, hgr⟩ := hg
  have hr := signatureGate_status hmac env req r hgr
  unfold boldsignWebhook
  simp only [hm, hgr]
  simp [hr]

/-- C5 witness: a concrete configured secret and a wrong signature are
rejected with a 401 and zero mutation. -/
theorem C5_witness :
    (boldsignWebhook hmacFix
        { webhookSecret := some "s3cr3t", boldsignApiKey := some "api-key",
          slackWebhookUrl := some "slack-url" }
        { method := "POST", signatureHeader := some "wrong", rawBody := "raw-body",
          payload := some { eventEventType := some "Completed",
                            eventDocumentId := some "doc1" } }
        {} "2026-01-01"
        { letters := [letterFix], clients := [clientFix] }).1.status = 401 ∧
    (boldsignWebhook hmacFix
        { webhookSecret := some "s3cr3t", boldsignApiKey := some "api-key",
          slackWebhookUrl := some "slack-url" }
        { method := "POST", signatureHeader := some "wrong", rawBody := "raw-body",
          payload := some { eventEventType := some "Completed",
                            eventDocumentId := some "doc1" } }
        {} "2026-01-01"
        { letters := [letterFix], clients := [clientFix] }).2.1
      = { letters := [letterFix], clients := [clientFix] } ∧
    (boldsignWebhook hmacFix
        { webhookSecret := some "s3cr3t", boldsignApiKey := some "api-key",
          slackWebhookUrl := some "slack-url" }
        { method := "POST", signatureHeader := some "wrong", rawBody := "raw-body",
          payload := some { eventEventType := some "Completed",
                            eventDocumentId := some "doc1" } }
        {} "2026-01-01"
        { letters := [letterFix], clients := [clientFix] }).2.2 = [] :=
  C5_signature_gate_rejects_before_mutation hmacFix _ _ {} "2026-01-01" _
    "s3cr3t" rfl rfl (Or.inr (by decide))

/-- C7: a POST that passes the signature gate but whose payload lacks a
truthy event type or document id, or names an event type outside the
closed handled set, is acknowledged with a 200 `ok` response and
produces zero state mutation and zero external effects. -/
theorem C7_unknown_event_acknowledged_without_mutation
    (hmac : String → String → String) (env : Env) (req : WebhookReq)
    (o : Outcomes) (today : String) (db : Db) (p : Payload)
    (hm : req.method = "POST")
    (hg : signatureGate hmac env req = none)
    (hp : req.payload = some p)
    (hcase : jsTruthy (jsOr p.eventEventType p.topEventType) = false
           ∨ jsTruthy (jsOr p.eventDocumentId p.topDocumentId) = false
           ∨ HANDLED_EVENTS.contains
               (jsGet (jsOr p.eventEventType p.topEventType)) = false) :
    (boldsignWebhook hmac env req o today db).1.status = 200 ∧
    (boldsignWebhook hmac env req o today db).1.ok = true ∧
    (boldsignWebhook hmac env req o today db).2.1 = db ∧
    (boldsignWebhook hmac env req o today db).2.2 = [] := by
  unfold boldsignWebhook
  rw [hm, hg, hp]
  rcases hcase with h | h | h
  · simp [h]
  · simp [h]
  · have hnm : jsGet (jsOr p.eventEventType p.topEventType) ∉ HANDLED_EVENTS := by
      simpa using h
    by_cases h2 : (jsTruthy (jsOr p.eventEventType p.topEventType)
        && jsTruthy (jsOr p.eventDocumentId p.topDocumentId)) = true
    · simp [h2, hnm]
    · simp [h2]

/-- C7 witness: a `DocumentDownloaded` event (outside the handled set)
for a known document is acknowledged with 200 and changes nothing. -/
theorem C7_witness :
    (boldsignWebhook hmacFix envBare (eventReq "DocumentDownloaded" "doc1") {}
        "2026-01-01" { letters := [letterFix], clients := [clientFix] }).1.status
      = 200 ∧
    (boldsignWebhook hmacFix envBare (eventReq "DocumentDownloaded" "doc1") {}
        "2026-01-01" { letters := [letterFix], clients := [clientFix] }).1.ok
      = true ∧
    (boldsignWebhook hmacFix envBare (eventReq "DocumentDownloaded" "doc1") {}
        "2026-01-01" { letters := [letterFix], clients := [clientFix] }).2.1
      = { letters := [letterFix], clients := [clientFix] } ∧
    (boldsignWebhook hmacFix envBare (eventReq "DocumentDownloaded" "doc1") {}
        "2026-01-01" { letters := [letterFix], clients := [clientFix] }).2.2
      = [] :=
  C7_unknown_event_acknowledged_without_mutation hmacFix envBare _ {}
    "2026-01-01" _ _ rfl rfl rfl (Or.inr (Or.inr (by decide)))

/-- C8 (amended): every webhook response status is 200, 401, 405 or
500, and 500 occurs only when the raw body fails to parse as JSON (the
catch block); contrary to the original claim, malformed JSON is
answered with 500, not 200. -/
theorem C8_response_status_partition (hmac : String → String → String)
    (env : Env) (req : WebhookReq) (o : Outcomes) (today : String) (db : Db) :
    ((boldsignWebhook hmac env req o today db).1.status = 200
     ∨ (boldsignWebhook hmac env req o today db).1.status = 401
     ∨ (boldsignWebhook hmac env req o today db).1.status = 405
     ∨ (boldsignWebhook hmac env req o today db).1.status = 500) ∧
    ((boldsignWebhook hmac env req o today db).1.status = 500
      → req.payload = none) := by
  unfold boldsignWebhook
  by_cases h1 : (req.method == "OPTIONS") = true
  · rw [if_pos h1]
    simp
  · rw [if_neg h1]
    by_cases h2 : (!(req.method == "POST")) = true
    · rw [if_pos h2]
      simp
    · rw [if_neg h2]
      rcases hgate : signatureGate hmac env req with _ | r
      · simp only [hgate]
        rcases hpay : req.payload with _ | p
        · simp [hpay]
        · simp only [hpay]
          repeat' split
          all_goals simp [handleLetterEvent_response]
      · have hr := signatureGate_status hmac env req r hgate
        simp [hgate, hr]

/-- C8 witness: the status partition evaluated at a concrete
well-formed request. -/
theorem C8_witness :
    ((boldsignWebhook hmacFix envBare (eventReq "Sent" "doc1") {} "2026-01-01"
        { letters := [letterFix], clients := [clientFix] }).1.status = 200
     ∨ (boldsignWebhook hmacFix envBare (eventReq "Sent" "doc1") {}
        "2026-01-01"
        { letters := [letterFix], clients := [clientFix] }).1.status = 401
     ∨ (boldsignWebhook hmacFix envBare (eventReq "Sent" "doc1") {}
        "2026-01-01"
        { letters := [letterFix], clients := [clientFix] }).1.status = 405
     ∨ (boldsignWebhook hmacFix envBare (eventReq "Sent" "doc1") {}
        "2026-01-01"
        { letters := [letterFix], clients := [clientFix] }).1.status = 500) ∧
    ((boldsignWebhook hmacFix envBare (eventReq "Sent" "doc1") {} "2026-01-01"
        { letters := [letterFix], clients := [clientFix] }).1.status = 500
      → (eventReq "Sent" "doc1").payload = none) :=
  C8_response_status_partition hmacFix envBare (eventReq "Sent" "doc1") {}
    "2026-01-01" { letters := [letterFix], clients := [clientFix] }

/-- C8 counterexample: a POST whose body is not valid JSON is answered
with a 500 from the catch block, not one of the statuses 200/401/405
the original claim allows. -/
theorem C8_counterexample :
    (boldsignWebhook hmacFix envBare
        { method := "POST", signatureHeader := none, rawBody := "not-json",
          payload := none } {} "2026-01-01"
        { letters := [letterFix], clients := [clientFix] }).1.status = 500 ∧
    ¬((boldsignWebhook hmacFix envBare
        { method := "POST", signatureHeader := none, rawBody := "not-json",
          payload := none } {} "2026-01-01"
        { letters := [letterFix], clients := [clientFix] }).1.status = 200
      ∨ (boldsignWebhook hmacFix envBare
        { method := "POST", signatureHeader := none, rawBody := "not-json",
          payload := none } {} "2026-01-01"
        { letters := [letterFix], clients := [clientFix] }).1.status = 401
      ∨ (boldsignWebhook hmacFix envBare
        { method := "POST", signatureHeader := none, rawBody := "not-json",
          payload := none } {} "2026-01-01"
        { letters := [letterFix], clients := [clientFix] }).1.status = 405) := by
  decide

/-- C1 counterexample: a letter whose `esign_status` is `completed` is
regressed to `viewed` by a later processed `Viewed` event — the
terminal value is not protected. -/
theorem C1_counterexample :
    ((boldsignWebhook hmacFix envBare (eventReq "Viewed" "doc1") {} "2026-01-02"
        { letters := [letterDone],
          clients := [clientFix] }).2.1.letters.map Letter.esign_status
      = [some "viewed"]) ∧
    ¬((boldsignWebhook hmacFix envBare (eventReq "Viewed" "doc1") {} "2026-01-02"
        { letters := [letterDone],
          clients := [clientFix] }).2.1.letters.map Letter.esign_status
      = [some "completed"]) := by
  decide

/-- C1 (amended): `completed` is not terminal — when a valid `Viewed`
event for a known letter is processed later and the status write
succeeds, the letter's `esign_status` is overwritten to `viewed` even
if it was `completed` (last-write-wins). -/
theorem C1_completed_overwritten_by_later_viewed
    (hmac : String → String → String) (env : Env) (req : WebhookReq)
    (o : Outcomes) (today : String) (db : Db) (p : Payload) (d : String)
    (letter : Letter)
    (hm : req.method = "POST")
    (hg : signatureGate hmac env req = none)
    (hp : req.payload = some p)
    (het : jsOr p.eventEventType p.topEventType = some "Viewed")
    (hd : jsOr p.eventDocumentId p.topDocumentId = some d) (hdne : d ≠ "")
    (hf : o.findLetterFails = false) (hsu : o.statusUpdateFails = false)
    (hfind : (db.letters.filter
        (fun L => L.boldsign_document_id == some d)).take 1 = [letter])
    (_hprev : letter.esign_status = some "completed") :
    (boldsignWebhook hmac env req o today db).2.1.letters.map Letter.esign_status
      = db.letters.map
          (fun L => if L.id == letter.id then some "viewed" else L.esign_status) := by
  rw [boldsignWebhook_found hmac env req o today db p "Viewed" d "viewed" letter
    hm hg hp het (by decide) hd hdne (by decide) rfl hf hfind]
  exact handleLetterEvent_letters_esign env o today "Viewed" d "viewed" letter db hsu

/-- C1 witness: concrete instance of the amended claim. -/
theorem C1_witness :
    (boldsignWebhook hmacFix envBare (eventReq "Viewed" "doc1") {} "2026-01-02"
        { letters := [letterDone],
          clients := [clientFix] }).2.1.letters.map Letter.esign_status
      = ({ letters := [letterDone], clients := [clientFix] } : Db).letters.map
          (fun L => if L.id == letterDone.id
            then some "viewed" else L.esign_status) :=
  C1_completed_overwritten_by_later_viewed hmacFix envBare _ {} "2026-01-02" _
    _ "doc1" letterDone rfl rfl rfl (by decide) (by decide) (by decide) rfl rfl
    (by decide) rfl

/-- C2: last-write-wins.  First conjunct: a valid classified event for
a known letter overwrites that letter's `esign_status` unconditionally
with the newly classified value, whatever the prior status.  Second
conjunct: processing `Sent`, then `Completed`, then `Viewed` for the
same letter leaves its final status at `viewed`. -/
theorem C2_status_overwritten_last_write_wins :
    (∀ (hmac : String → String → String) (env : Env) (req : WebhookReq)
        (o : Outcomes) (today : String) (db : Db) (p : Payload)
        (et d st : String) (letter : Letter),
      req.method = "POST" → signatureGate hmac env req = none →
      req.payload = some p →
      jsOr p.eventEventType p.topEventType = some et → et ≠ "" →
      jsOr p.eventDocumentId p.topDocumentId = some d → d ≠ "" →
      HANDLED_EVENTS.contains et = true → mapEventToStatus et = some st →
      o.findLetterFails = false → o.statusUpdateFails = false →
      (db.letters.filter
        (fun L => L.boldsign_document_id == some d)).take 1 = [letter] →
      (boldsignWebhook hmac env req o today db).2.1.letters.map Letter.esign_status
        = db.letters.map
            (fun L => if L.id == letter.id then some st else L.esign_status)) ∧
    (∀ (hmac : String → String → String) (today : String)
        (s0 a0 p0 : Option String) (cs : List Client),
      (boldsignWebhook hmac envBare (eventReq "Viewed" "doc1") {} today
        (boldsignWebhook hmac envBare (eventReq "Completed" "doc1") {} today
          (boldsignWebhook hmac envBare (eventReq "Sent" "doc1") {} today
            { letters := [{ id := "L1", client_id := some "C1",
                            boldsign_document_id := some "doc1",
                            esign_status := s0, approval_status := a0,
                            signed_pdf_path := p0 }],
              clients := cs }).2.1).2.1).2.1.letters.map Letter.esign_status
        = [some "viewed"]) := by
  constructor
  · intro hmac env req o today db p et d st letter hm hg hp het hetne hd hdne
      hh hmap hf hsu hfind
    rw [boldsignWebhook_found hmac env req o today db p et d st letter
      hm hg hp het hetne hd hdne hh hmap hf hfind]
    exact handleLetterEvent_letters_esign env o today et d st letter db hsu
  · intro hmac today s0 a0 p0 cs
    simp +decide [boldsignWebhook, handleLetterEvent, statusUpdatedDb,
      retrievalStep, clientStep, signatureGate, eventReq, envBare, jsOr,
      jsTruthy, jsGet, jsInterp, HANDLED_EVENTS, mapEventToStatus]

/-- C2 witness: concrete instance of both conjuncts. -/
theorem C2_witness :
    ((boldsignWebhook hmacFix envBare (eventReq "Signed" "doc1") {} "2026-01-03"
        { letters := [letterFix], clients := [clientFix] }).2.1.letters.map
          Letter.esign_status
      = ({ letters := [letterFix], clients := [clientFix] } : Db).letters.map
          (fun L => if L.id == letterFix.id then some "signed"
                    else L.esign_status)) ∧
    ((boldsignWebhook hmacFix envBare (eventReq "Viewed" "doc1") {} "2026-01-03"
        (boldsignWebhook hmacFix envBare (eventReq "Completed" "doc1") {}
          "2026-01-03"
          (boldsignWebhook hmacFix envBare (eventReq "Sent" "doc1") {}
            "2026-01-03"
            { letters := [{ id := "L1", client_id := some "C1",
                            boldsign_document_id := some "doc1",
                            esign_status := some "unsent",
                            approval_status := none,
                            signed_pdf_path := none }],
              clients := [clientFix] }).2.1).2.1).2.1.letters.map
          Letter.esign_status
      = [some "viewed"]) :=
  ⟨C2_status_overwritten_last_write_wins.1 hmacFix envBare _ {} "2026-01-03" _
      _ "Signed" "doc1" "signed" letterFix rfl rfl rfl (by decide) (by decide)
      (by decide) (by decide) (by decide) rfl rfl rfl (by decide),
   C2_status_overwritten_last_write_wins.2 hmacFix "2026-01-03"
      (some "unsent") none none [clientFix]⟩

/-- C4: a `Completed` event for a known letter with a truthy client id,
with an API key and a Slack URL configured, always yields a 200 `ok`
acknowledgment and a trace containing all four side-effect attempts —
status/approval update, provider download, client update and
notification — for every combination of external-call outcomes, so no
single failure prevents the other attempts or the acknowledgment. -/
theorem C4_completion_side_effects_independent
    (hmac : String → String → String) (env : Env) (req : WebhookReq)
    (o : Outcomes) (today : String) (db : Db) (p : Payload) (d : String)
    (letter : Letter) (k u c : String)
    (hm : req.method = "POST")
    (hg : signatureGate hmac env req = none)
    (hp : req.payload = some p)
    (het : jsOr p.eventEventType p.topEventType = some "Completed")
    (hd : jsOr p.eventDocumentId p.topDocumentId = some d) (hdne : d ≠ "")
    (hf : o.findLetterFails = false)
    (hfind : (db.letters.filter
        (fun L => L.boldsign_document_id == some d)).take 1 = [letter])
    (hk : env.boldsignApiKey = some k) (hs : env.slackWebhookUrl = some u)
    (hc : letter.client_id = some c) (hcne : c ≠ "") :
    (boldsignWebhook hmac env req o today db).1.status = 200 ∧
    (boldsignWebhook hmac env req o today db).1.ok = true ∧
    Effect.updateLetterStatus letter.id "completed" (some "Executed")
      ∈ (boldsignWebhook hmac env req o today db).2.2 ∧
    Effect.download d ∈ (boldsignWebhook hmac env req o today db).2.2 ∧
    Effect.updateClient c "Executed" today
      ∈ (boldsignWebhook hmac env req o today db).2.2 ∧
    Effect.notify ∈ (boldsignWebhook hmac env req o today db).2.2 := by
  rw [boldsignWebhook_found hmac env req o today db p "Completed" d "completed"
    letter hm hg hp het (by decide) hd hdne (by decide) rfl hf hfind]
  have ht := handleLetterEvent_trace_completed env o today d "completed"
    letter db k u c hk hs hc hcne
  exact ⟨rfl, rfl, List.mem_cons_of_mem _ ht.1,
    List.mem_cons_of_mem _ ht.2.1, List.mem_cons_of_mem _ ht.2.2.1,
    List.mem_cons_of_mem _ ht.2.2.2⟩

/-- C4 witness: a `Completed` event with a forced notification-channel
failure and a failed download still yields 200 `ok` and all four
attempts. -/
theorem C4_witness :
    (boldsignWebhook hmacFix envFix (eventReq "Completed" "doc1")
        { downloadResult := none, notifyFails := true } "2026-01-04"
        { letters := [letterFix], clients := [clientFix] }).1.status = 200 ∧
    (boldsignWebhook hmacFix envFix (eventReq "Completed" "doc1")
        { downloadResult := none, notifyFails := true } "2026-01-04"
        { letters := [letterFix], clients := [clientFix] }).1.ok = true ∧
    Effect.updateLetterStatus letterFix.id "completed" (some "Executed")
      ∈ (boldsignWebhook hmacFix envFix (eventReq "Completed" "doc1")
        { downloadResult := none, notifyFails := true } "2026-01-04"
        { letters := [letterFix], clients := [clientFix] }).2.2 ∧
    Effect.download "doc1"
      ∈ (boldsignWebhook hmacFix envFix (eventReq "Completed" "doc1")
        { downloadResult := none, notifyFails := true } "2026-01-04"
        { letters := [letterFix], clients := [clientFix] }).2.2 ∧
    Effect.updateClient "C1" "Executed" "2026-01-04"
      ∈ (boldsignWebhook hmacFix envFix (eventReq "Completed" "doc1")
        { downloadResult := none, notifyFails := true } "2026-01-04"
        { letters := [letterFix], clients := [clientFix] }).2.2 ∧
    Effect.notify
      ∈ (boldsignWebhook hmacFix envFix (eventReq "Completed" "doc1")
        { downloadResult := none, notifyFails := true } "2026-01-04"
        { letters := [letterFix], clients := [clientFix] }).2.2 :=
  C4_completion_side_effects_independent hmacFix envFix _
    { downloadResult := none, notifyFails := true } "2026-01-04" _ _ "doc1"
    letterFix "api-key" "slack-url" "C1" rfl rfl rfl (by decide) (by decide)
    (by decide) rfl (by decide) rfl rfl rfl (by decide)

/-- C10: when the primary `esign_status` update fails, the webhook
still acknowledges with 200 `ok`, the response is identical to the one
of a run where the update succeeded (so the acknowledgment carries no
information about persistence), and the completion side effects are
still attempted. -/
theorem C10_status_update_failure_swallowed
    (hmac : String → String → String) (env : Env) (req : WebhookReq)
    (o : Outcomes) (today : String) (db : Db) (p : Payload) (d : String)
    (letter : Letter) (k u c : String)
    (hm : req.method = "POST")
    (hg : signatureGate hmac env req = none)
    (hp : req.payload = some p)
    (het : jsOr p.eventEventType p.topEventType = some "Completed")
    (hd : jsOr p.eventDocumentId p.topDocumentId = some d) (hdne : d ≠ "")
    (hf : o.findLetterFails = false)
    (_hsu : o.statusUpdateFails = true)
    (hfind : (db.letters.filter
        (fun L => L.boldsign_document_id == some d)).take 1 = [letter])
    (hk : env.boldsignApiKey = some k) (hs : env.slackWebhookUrl = some u)
    (hc : letter.client_id = some c) (hcne : c ≠ "") :
    (boldsignWebhook hmac env req o today db).1.status = 200 ∧
    (boldsignWebhook hmac env req o today db).1.ok = true ∧
    (boldsignWebhook hmac env req o today db).1
      = (boldsignWebhook hmac env req
          { o with statusUpdateFails := false } today db).1 ∧
    Effect.download d ∈ (boldsignWebhook hmac env req o today db).2.2 ∧
    Effect.updateClient c "Executed" today
      ∈ (boldsignWebhook hmac env req o today db).2.2 ∧
    Effect.notify ∈ (boldsignWebhook hmac env req o today db).2.2 := by
  have ht := handleLetterEvent_trace_completed env o today d "completed"
    letter db k u c hk hs hc hcne
  rw [boldsignWebhook_found hmac env req o today db p "Completed" d "completed"
    letter hm hg hp het (by decide) hd hdne (by decide) rfl hf hfind,
    boldsignWebhook_found hmac env req { o with statusUpdateFails := false }
      today db p "Completed" d "completed" letter hm hg hp het (by decide) hd
      hdne (by decide) rfl (by simpa using hf) hfind]
  exact ⟨rfl, rfl, rfl, List.mem_cons_of_mem _ ht.2.1,
    List.mem_cons_of_mem _ ht.2.2.1, List.mem_cons_of_mem _ ht.2.2.2⟩

/-- C10 witness: concrete `Completed` event with a failing primary
status update. -/
theorem C10_witness :
    (boldsignWebhook hmacFix envFix (eventReq "Completed" "doc1")
        { statusUpdateFails := true } "2026-01-05"
        { letters := [letterFix], clients := [clientFix] }).1.status = 200 ∧
    (boldsignWebhook hmacFix envFix (eventReq "Completed" "doc1")
        { statusUpdateFails := true } "2026-01-05"
        { letters := [letterFix], clients := [clientFix] }).1.ok = true ∧
    (boldsignWebhook hmacFix envFix (eventReq "Completed" "doc1")
        { statusUpdateFails := true } "2026-01-05"
        { letters := [letterFix], clients := [clientFix] }).1
      = (boldsignWebhook hmacFix envFix (eventReq "Completed" "doc1")
          { ({ statusUpdateFails := true } : Outcomes) with
            statusUpdateFails := false } "2026-01-05"
          { letters := [letterFix], clients := [clientFix] }).1 ∧
    Effect.download "doc1"
      ∈ (boldsignWebhook hmacFix envFix (eventReq "Completed" "doc1")
          { statusUpdateFails := true } "2026-01-05"
          { letters := [letterFix], clients := [clientFix] }).2.2 ∧
    Effect.updateClient "C1" "Executed" "2026-01-05"
      ∈ (boldsignWebhook hmacFix envFix (eventReq "Completed" "doc1")
          { statusUpdateFails := true } "2026-01-05"
          { letters := [letterFix], clients := [clientFix] }).2.2 ∧
    Effect.notify
      ∈ (boldsignWebhook hmacFix envFix (eventReq "Completed" "doc1")
          { statusUpdateFails := true } "2026-01-05"
          { letters := [letterFix], clients := [clientFix] }).2.2 :=
  C10_status_update_failure_swallowed hmacFix envFix _
    { statusUpdateFails := true } "2026-01-05" _ _ "doc1" letterFix
    "api-key" "slack-url" "C1" rfl rfl rfl (by decide) (by decide) (by decide)
    rfl rfl (by decide) rfl rfl rfl (by decide)

/-- C9: an on-demand retrieval for a letter with no stored artifact
path and a null `boldsign_document_id` fails with a specific 400 error
naming the missing BoldSign document link, leaves the database
untouched, and performs no provider download and no artifact-store
write — at both the authenticated and the service-level entry point. -/
theorem C9_missing_document_id_guard (env : Env) (req : FetchReq)
    (o : FetchOutcomes) (db : Db) (e lid : String) (letter : Letter)
    (hm : ¬ req.method = "OPTIONS")
    (ha : jsTruthy req.authHeader = true)
    (hu : req.userEmail = some (some e))
    (he : jsEndsWith e "@margolispllc.com" = true)
    (hb : req.body = some (some lid)) (hlne : lid ≠ "")
    (hq : o.letterQueryFails = false)
    (hfind : db.letters.find? (fun L => L.id == lid) = some letter)
    (hpath : letter.signed_pdf_path = none)
    (hdoc : letter.boldsign_document_id = none) :
    (fetchSignedDocument env req o db).1.status = 400 ∧
    (fetchSignedDocument env req o db).1.error
      = some "No BoldSign document linked to this letter" ∧
    (fetchSignedDocument env req o db).2.1 = db ∧
    (fetchSignedDocument env req o db).2.2 = [Effect.getLetterById lid] ∧
    countDownloads (fetchSignedDocument env req o db).2.2 = 0 ∧
    countUploads (fetchSignedDocument env req o db).2.2 = 0 ∧
    (fetchSignedDocumentService env req o db).1.status = 400 ∧
    (fetchSignedDocumentService env req o db).1.error
      = some "No BoldSign document linked to this letter" ∧
    (fetchSignedDocumentService env req o db).2.1 = db ∧
    (fetchSignedDocumentService env req o db).2.2
      = [Effect.getLetterById lid] ∧
    countDownloads (fetchSignedDocumentService env req o db).2.2 = 0 ∧
    countUploads (fetchSignedDocumentService env req o db).2.2 = 0 := by
  rw [fetchSignedDocument_found env req o db e lid letter hm ha hu he hb hlne
    hq hfind,
    fetchSignedDocumentService_found env req o db e lid letter hm ha hu he hb
      hlne hq hfind]
  have h1 : fetchLetterStage env o letter db
      = ({ status := 400,
           error := some "No BoldSign document linked to this letter" },
         db, []) := by
    unfold fetchLetterStage
    rw [hpath, hdoc]
    simp
  have h2 : fetchLetterStageService env o letter db
      = ({ status := 400,
           error := some "No BoldSign document linked to this letter" },
         db, []) := by
    unfold fetchLetterStageService
    rw [hpath, hdoc]
    simp
  rw [h1, h2]
  refine ⟨rfl, rfl, rfl, rfl, rfl, rfl, rfl, rfl, rfl, rfl, rfl, rfl⟩

/-- C9 witness: concrete letter with a null document id and no stored
path. -/
theorem C9_witness :
    (fetchSignedDocument envFix (fetchReq "L1") {}
        { letters := [letterNoDoc],
          clients := [clientFix] }).1.status = 400 ∧
    (fetchSignedDocument envFix (fetchReq "L1") {}
        { letters := [letterNoDoc],
          clients := [clientFix] }).1.error
      = some "No BoldSign document linked to this letter" ∧
    (fetchSignedDocument envFix (fetchReq "L1") {}
        { letters := [letterNoDoc],
          clients := [clientFix] }).2.1
      = { letters := [letterNoDoc],
          clients := [clientFix] } ∧
    (fetchSignedDocument envFix (fetchReq "L1") {}
        { letters := [letterNoDoc],
          clients := [clientFix] }).2.2 = [Effect.getLetterById "L1"] ∧
    countDownloads (fetchSignedDocument envFix (fetchReq "L1") {}
        { letters := [letterNoDoc],
          clients := [clientFix] }).2.2 = 0 ∧
    countUploads (fetchSignedDocument envFix (fetchReq "L1") {}
        { letters := [letterNoDoc],
          clients := [clientFix] }).2.2 = 0 ∧
    (fetchSignedDocumentService envFix (fetchReq "L1") {}
        { letters := [letterNoDoc],
          clients := [clientFix] }).1.status = 400 ∧
    (fetchSignedDocumentService envFix (fetchReq "L1") {}
        { letters := [letterNoDoc],
          clients := [clientFix] }).1.error
      = some "No BoldSign document linked to this letter" ∧
    (fetchSignedDocumentService envFix (fetchReq "L1") {}
        { letters := [letterNoDoc],
          clients := [clientFix] }).2.1
      = { letters := [letterNoDoc],
          clients := [clientFix] } ∧
    (fetchSignedDocumentService envFix (fetchReq "L1") {}
        { letters := [letterNoDoc],
          clients := [clientFix] }).2.2 = [Effect.getLetterById "L1"] ∧
    countDownloads (fetchSignedDocumentService envFix (fetchReq "L1") {}
        { letters := [letterNoDoc],
          clients := [clientFix] }).2.2 = 0 ∧
    countUploads (fetchSignedDocumentService envFix (fetchReq "L1") {}
        { letters := [letterNoDoc],
          clients := [clientFix] }).2.2 = 0 :=
  C9_missing_document_id_guard envFix (fetchReq "L1") {} _
    "user@margolispllc.com" "L1" letterNoDoc (by decide) (by decide) rfl
    (by decide) rfl (by decide) rfl (by decide) rfl rfl

/-- C3 counterexample: for a letter whose artifact path is already
stored, a redelivered `Completed` webhook performs a fresh provider
download and a fresh artifact-store write — the webhook entry point
has no idempotence short-circuit. -/
theorem C3_counterexample :
    letterStored.signed_pdf_path = some "C1/L1_signed.pdf" ∧
    countDownloads (boldsignWebhook hmacFix envFix
        (eventReq "Completed" "doc1") {} "2026-01-06"
        { letters := [letterStored], clients := [clientFix] }).2.2 = 1 ∧
    countUploads (boldsignWebhook hmacFix envFix
        (eventReq "Completed" "doc1") {} "2026-01-06"
        { letters := [letterStored], clients := [clientFix] }).2.2 = 1 := by
  decide

/-- C3 (amended): retrieval is idempotent at the pull-based fetch entry
point only.  First conjunct: when `signed_pdf_path` is already set, the
fetch endpoint returns it immediately with `alreadyStored = true`, with
no download, no write and no state change.  Second conjunct: two
successive fetch calls from an unstored state yield the same path, the
second reports `alreadyStored = true`, and exactly one artifact write
occurs across both calls.  (The webhook entry point, by contrast,
re-downloads and re-uploads on every `Completed` delivery.) -/
theorem C3_fetch_retrieval_idempotent :
    (∀ (env : Env) (req : FetchReq) (o : FetchOutcomes) (db : Db)
        (e lid pa : String) (letter : Letter),
      ¬ req.method = "OPTIONS" → jsTruthy req.authHeader = true →
      req.userEmail = some (some e) →
      jsEndsWith e "@margolispllc.com" = true →
      req.body = some (some lid) → lid ≠ "" →
      o.letterQueryFails = false →
      db.letters.find? (fun L => L.id == lid) = some letter →
      letter.signed_pdf_path = some pa → pa ≠ "" →
      (fetchSignedDocument env req o db).1
          = { status := 200, ok := true, path := some pa,
              alreadyStored := true } ∧
        (fetchSignedDocument env req o db).2.1 = db ∧
        (fetchSignedDocument env req o db).2.2 = [Effect.getLetterById lid] ∧
        countDownloads (fetchSignedDocument env req o db).2.2 = 0 ∧
        countUploads (fetchSignedDocument env req o db).2.2 = 0) ∧
    (∀ (lid d2 k : String) (cid a0 : Option String) (bs : List Nat)
        (st0 : Option String) (cs : List Client),
      lid ≠ "" → d2 ≠ "" →
      st0 = some "completed" ∨ st0 = some "signed" →
      (fetchSignedDocument
          { webhookSecret := none, boldsignApiKey := some k,
            slackWebhookUrl := none }
          (fetchReq lid) { downloadResult := some bs }
          { letters := [{ id := lid, client_id := cid,
                          boldsign_document_id := some d2,
                          esign_status := st0, approval_status := a0,
                          signed_pdf_path := none }],
            clients := cs }).1.status = 200 ∧
      (fetchSignedDocument
          { webhookSecret := none, boldsignApiKey := some k,
            slackWebhookUrl := none }
          (fetchReq lid) { downloadResult := some bs }
          { letters := [{ id := lid, client_id := cid,
                          boldsign_document_id := some d2,
                          esign_status := st0, approval_status := a0,
                          signed_pdf_path := none }],
            clients := cs }).1.path
        = some (fetchStoragePath
            { id := lid, client_id := cid, boldsign_document_id := some d2,
              esign_status := st0, approval_status := a0,
              signed_pdf_path := none }) ∧
      countUploads (fetchSignedDocument
          { webhookSecret := none, boldsignApiKey := some k,
            slackWebhookUrl := none }
          (fetchReq lid) { downloadResult := some bs }
          { letters := [{ id := lid, client_id := cid,
                          boldsign_document_id := some d2,
                          esign_status := st0, approval_status := a0,
                          signed_pdf_path := none }],
            clients := cs }).2.2 = 1 ∧
      (fetchSignedDocument
          { webhookSecret := none, boldsignApiKey := some k,
            slackWebhookUrl := none }
          (fetchReq lid) { downloadResult := some bs }
          (fetchSignedDocument
            { webhookSecret := none, boldsignApiKey := some k,
              slackWebhookUrl := none }
            (fetchReq lid) { downloadResult := some bs }
            { letters := [{ id := lid, client_id := cid,
                            boldsign_document_id := some d2,
                            esign_status := st0, approval_status := a0,
                            signed_pdf_path := none }],
              clients := cs }).2.1).1.path
        = some (fetchStoragePath
            { id := lid, client_id := cid, boldsign_document_id := some d2,
              esign_status := st0, approval_status := a0,
              signed_pdf_path := none }) ∧
      (fetchSignedDocument
          { webhookSecret := none, boldsignApiKey := some k,
            slackWebhookUrl := none }
          (fetchReq lid) { downloadResult := some bs }
          (fetchSignedDocument
            { webhookSecret := none, boldsignApiKey := some k,
              slackWebhookUrl := none }
            (fetchReq lid) { downloadResult := some bs }
            { letters := [{ id := lid, client_id := cid,
                            boldsign_document_id := some d2,
                            esign_status := st0, approval_status := a0,
                            signed_pdf_path := none }],
              clients := cs }).2.1).1.alreadyStored = true ∧
      countUploads (fetchSignedDocument
          { webhookSecret := none, boldsignApiKey := some k,
            slackWebhookUrl := none }
          (fetchReq lid) { downloadResult := some bs }
          (fetchSignedDocument
            { webhookSecret := none, boldsignApiKey := some k,
              slackWebhookUrl := none }
            (fetchReq lid) { downloadResult := some bs }
            { letters := [{ id := lid, client_id := cid,
                            boldsign_document_id := some d2,
                            esign_status := st0, approval_status := a0,
                            signed_pdf_path := none }],
              clients := cs }).2.1).2.2 = 0) := by
  constructor
  · intro env req o db e lid pa letter hm ha hu he hb hlne hq hfind hpath hpane
    rw [fetchSignedDocument_found env req o db e lid letter hm ha hu he hb
      hlne hq hfind,
      fetchLetterStage_alreadyStored env o letter db pa hpath hpane]
    exact ⟨rfl, rfl, rfl, rfl, rfl⟩
  · intro lid d2 k cid a0 bs st0 cs hlne hd2ne hst
    rcases hst with h | h <;>
      simp +decide [fetchSignedDocument, fetchLetterStage, fetchReq,
        jsTruthy_some_of_ne hlne, jsTruthy_some_of_ne hd2ne, h,
        countUploads, List.find?]

/-- C3 witness: concrete instance of both conjuncts of the amended
claim. -/
theorem C3_witness :
    ((fetchSignedDocument envFix (fetchReq "L1") {}
        { letters := [letterStored], clients := [clientFix] }).1
      = { status := 200, ok := true, path := some "C1/L1_signed.pdf",
          alreadyStored := true } ∧
      (fetchSignedDocument envFix (fetchReq "L1") {}
        { letters := [letterStored], clients := [clientFix] }).2.1
      = { letters := [letterStored], clients := [clientFix] } ∧
      (fetchSignedDocument envFix (fetchReq "L1") {}
        { letters := [letterStored], clients := [clientFix] }).2.2
      = [Effect.getLetterById "L1"] ∧
      countDownloads (fetchSignedDocument envFix (fetchReq "L1") {}
        { letters := [letterStored], clients := [clientFix] }).2.2 = 0 ∧
      countUploads (fetchSignedDocument envFix (fetchReq "L1") {}
        { letters := [letterStored], clients := [clientFix] }).2.2 = 0) ∧
    ((fetchSignedDocument
        { webhookSecret := none, boldsignApiKey := some "api-key",
          slackWebhookUrl := none }
        (fetchReq "L1") { downloadResult := some [7] }
        { letters := [{ id := "L1", client_id := some "C1",
                        boldsign_document_id := some "doc1",
                        esign_status := some "signed",
                        approval_status := none,
                        signed_pdf_path := none }],
          clients := [clientFix] }).1.status = 200) :=
  ⟨C3_fetch_retrieval_idempotent.1 envFix (fetchReq "L1") {} _
      "user@margolispllc.com" "L1" "C1/L1_signed.pdf" letterStored
      (by decide) (by decide) rfl (by decide) rfl (by decide) rfl (by decide)
      rfl (by decide),
   (C3_fetch_retrieval_idempotent.2 "L1" "doc1" "api-key" (some "C1") none
      [7] (some "signed") [clientFix] (by decide) (by decide)
      (Or.inr rfl)).1⟩

/-- C6: the artifact key is one deterministic function of
`(clientId, letterId)` at both entry points.  First conjunct: the
webhook and the fetch handler compute the same key for every letter.
Second conjunct: for letters with a client id the key is exactly
`<clientId>/<letterId>_signed.pdf` as the specification words it.
Third and fourth conjuncts: a push-path `Completed` delivery and a
pull-path fetch for the same unstored letter, in either interleaving
order, both succeed and converge on the single canonical stored path. -/
theorem C6_deterministic_storage_key_convergence :
    (∀ letter : Letter, webhookStoragePath letter = fetchStoragePath letter) ∧
    (∀ (letter : Letter) (c : String), letter.client_id = some c →
      webhookStoragePath letter = canonicalStoragePath c letter.id ∧
      fetchStoragePath letter = canonicalStoragePath c letter.id) ∧
    ((boldsignWebhook hmacFix envFix (eventReq "Completed" "doc1") {}
        "2026-01-07"
        { letters := [letterSigned], clients := [clientFix] }).1.status = 200 ∧
     (boldsignWebhook hmacFix envFix (eventReq "Completed" "doc1") {}
        "2026-01-07"
        { letters := [letterSigned], clients := [clientFix] }).1.ok = true ∧
     (fetchSignedDocument envFix (fetchReq "L1") {}
        (boldsignWebhook hmacFix envFix (eventReq "Completed" "doc1") {}
          "2026-01-07"
          { letters := [letterSigned], clients := [clientFix] }).2.1).1.status
        = 200 ∧
     (fetchSignedDocument envFix (fetchReq "L1") {}
        (boldsignWebhook hmacFix envFix (eventReq "Completed" "doc1") {}
          "2026-01-07"
          { letters := [letterSigned], clients := [clientFix] }).2.1).1.ok
        = true ∧
     (fetchSignedDocument envFix (fetchReq "L1") {}
        (boldsignWebhook hmacFix envFix (eventReq "Completed" "doc1") {}
          "2026-01-07"
          { letters := [letterSigned],
            clients := [clientFix] }).2.1).1.alreadyStored = true ∧
     (fetchSignedDocument envFix (fetchReq "L1") {}
        (boldsignWebhook hmacFix envFix (eventReq "Completed" "doc1") {}
          "2026-01-07"
          { letters := [letterSigned], clients := [clientFix] }).2.1).1.path
        = some (canonicalStoragePath "C1" "L1") ∧
     (fetchSignedDocument envFix (fetchReq "L1") {}
        (boldsignWebhook hmacFix envFix (eventReq "Completed" "doc1") {}
          "2026-01-07"
          { letters := [letterSigned],
            clients := [clientFix] }).2.1).2.1.letters.map
          Letter.signed_pdf_path
        = [some (canonicalStoragePath "C1" "L1")]) ∧
    ((fetchSignedDocument envFix (fetchReq "L1") {}
        { letters := [letterSigned], clients := [clientFix] }).1.status
        = 200 ∧
     (fetchSignedDocument envFix (fetchReq "L1") {}
        { letters := [letterSigned], clients := [clientFix] }).1.ok = true ∧
     (fetchSignedDocument envFix (fetchReq "L1") {}
        { letters := [letterSigned], clients := [clientFix] }).1.path
        = some (canonicalStoragePath "C1" "L1") ∧
     (boldsignWebhook hmacFix envFix (eventReq "Completed" "doc1") {}
        "2026-01-07"
        (fetchSignedDocument envFix (fetchReq "L1") {}
          { letters := [letterSigned],
            clients := [clientFix] }).2.1).1.status = 200 ∧
     (boldsignWebhook hmacFix envFix (eventReq "Completed" "doc1") {}
        "2026-01-07"
        (fetchSignedDocument envFix (fetchReq "L1") {}
          { letters := [letterSigned],
            clients := [clientFix] }).2.1).1.ok = true ∧
     (boldsignWebhook hmacFix envFix (eventReq "Completed" "doc1") {}
        "2026-01-07"
        (fetchSignedDocument envFix (fetchReq "L1") {}
          { letters := [letterSigned],
            clients := [clientFix] }).2.1).2.1.letters.map
          Letter.signed_pdf_path
        = [some (canonicalStoragePath "C1" "L1")]) := by
  refine ⟨fun letter => rfl, fun letter c h =>
    ⟨webhookStoragePath_eq_canonical h, fetchStoragePath_eq_canonical h⟩,
    ?_, ?_⟩
  · decide
  · decide

/-- C6 witness: the canonical key computed for the concrete letter. -/
theorem C6_witness :
    webhookStoragePath letterFix = canonicalStoragePath "C1" "L1" ∧
    fetchStoragePath letterFix = canonicalStoragePath "C1" "L1" :=
  C6_deterministic_storage_key_convergence.2.1 letterFix "C1" rfl

end Intakr
